import Mathlib

/-!
Shallow embedding of `src/open_octopus/client.py` (async client for the
Octopus Energy GraphQL API, UK and Japan regions).

Modelling conventions:
* JSON values (the parsed bodies returned by `resp.json()`) are the inductive
  type `Json`; numbers are rationals (`ℚ`), standing in for Python floats.
* Python exceptions raised while navigating a JSON value (`KeyError`,
  `IndexError`, `TypeError`, `AttributeError`) are the type `PyErr`; the
  exception classes of the library are `OctoErr`.
* Python truthiness of a JSON value (`if x:`, `x or y`, `x and y`) is the
  boolean `jsonTruthy`.
* Timestamps are minutes, as integers; `timedelta(minutes=n)` is `+ n`.
* HTTP is explicit: each operation takes the parsed response body (or an
  `Except` when the code catches transport errors) as an argument, and
  operations that send requests also return the request they would post, so
  that "posts to URL u" and "performs an acquisition" are statable.
-/

/-- A parsed JSON value, as returned by `resp.json()` in `client.py`.
Numbers are modelled by rationals. -/
inductive Json where
  | null
  | bool (b : Bool)
  | num (q : ℚ)
  | str (s : String)
  | arr (elems : List Json)
  | obj (fields : List (String × Json))

/-- Python truthiness of a JSON value (`bool(x)`). -/
def jsonTruthy : Json → Bool
  | .null => false
  | .bool b => b
  | .num q => q != 0
  | .str s => s != ""
  | .arr xs => !xs.isEmpty
  | .obj kvs => !kvs.isEmpty

/-- Python truthiness of an `Optional[str]` field (`None` and `""` are falsy). -/
def optTruthy : Option String → Bool
  | none => false
  | some s => s != ""

/-- First binding of a key in the field list of a JSON object. -/
def lookupField : List (String × Json) → String → Option Json
  | [], _ => none
  | (k, v) :: rest, key => if k == key then some v else lookupField rest key

/-- Python exceptions that JSON navigation can raise. -/
inductive PyErr where
  | keyError
  | indexError
  | typeError
  | attributeError
deriving DecidableEq

/-- The exception classes defined at the bottom of `client.py`.
`AuthenticationError` and `APIError` are raised with the first entry of the
GraphQL error envelope (a JSON value); `ConfigurationError` with a fixed
string. `pyExc` wraps a propagating Python exception. -/
inductive OctoErr where
  | authenticationError (msg : Json)
  | apiError (msg : Json)
  | configurationError (msg : String)
  | pyExc (e : PyErr)

/-- Python `j[k]` for a string key: object lookup, `KeyError` when missing,
`TypeError` on non-dict values. -/
def pyKey (j : Json) (k : String) : Except PyErr Json :=
  match j with
  | .obj fields =>
    match lookupField fields k with
    | some v => .ok v
    | none => .error .keyError
  | _ => .error .typeError

/-- Python `j.get(k, default)`: only dicts have `.get` (`AttributeError`
otherwise). -/
def pyGetD (j : Json) (k : String) (default : Json) : Except PyErr Json :=
  match j with
  | .obj fields => .ok ((lookupField fields k).getD default)
  | _ => .error .attributeError

/-- Python `j[i]` for a non-negative integer index (lists and strings are
indexable; other values raise `TypeError`). -/
def pyIndex (j : Json) (i : Nat) : Except PyErr Json :=
  match j with
  | .arr xs =>
    match xs[i]? with
    | some v => .ok v
    | none => .error .indexError
  | .str s =>
    match s.toList[i]? with
    | some c => .ok (.str (String.mk [c]))
    | none => .error .indexError
  | _ => .error .typeError

/-- Substring test, for Python `key in s` on strings. -/
def strContains (hay needle : String) : Bool :=
  (hay.splitOn needle).length != 1

/-- Python `key in j`: key membership for dicts, element membership for
lists, substring test for strings, `TypeError` otherwise. -/
def pyIn (key : String) (j : Json) : Except PyErr Bool :=
  match j with
  | .obj fields => .ok (fields.any (fun kv => kv.1 == key))
  | .arr xs =>
    .ok (xs.any (fun x => match x with | .str t => t == key | _ => false))
  | .str s => .ok (strContains s key)
  | _ => .error .typeError

/-- `data["errors"][0]["message"]`, as evaluated on lines 173 and 196 of
`client.py`. -/
def firstErrorMessage (data : Json) : Except PyErr Json := do
  let errs ← pyKey data "errors"
  let e0 ← pyIndex errs 0
  pyKey e0 "message"

/-- `GRAPHQL_URLS` (client.py lines 15-18). -/
def GRAPHQL_URLS : List (String × String) :=
  [("uk", "https://api.octopus.energy/v1/graphql/"),
   ("japan", "https://api.oejp-kraken.energy/v1/graphql/")]

/-- `REST_API_URL` (client.py line 19). -/
def REST_API_URL : String := "https://api.octopus.energy/v1"

/-- Python `dict.get` on a string-to-string dict. -/
def dictGet : List (String × String) → String → Option String
  | [], _ => none
  | (k, v) :: rest, key => if k == key then some v else dictGet rest key

/-- The mutable fields of `OctopusClient`. The source prefixes the private
fields with an underscore (`_token`, `_refresh_token`, `_token_expires`,
`_graphql_url`); the underscore is dropped here. The `_http` handle is not
modelled (HTTP is explicit, see the header comment). `token` and
`refresh_token` hold whatever JSON value the API returned (`null` initially,
like Python `None`); `account` likewise, since `_ensure_account` stores the
raw JSON account number. -/
structure ClientState where
  region : String
  email : Option String
  password : Option String
  api_key : Option String
  account : Json
  mpan : Option String
  meter_serial : Option String
  gas_mprn : Option String
  gas_meter_serial : Option String
  token : Json
  refresh_token : Json
  token_expires : Option Int
  graphql_url : String

/-- `OctopusClient.__init__` (client.py lines 50-94). -/
def initClient (email password api_key : Option String) (account : Option String)
    (region : String) (mpan meter_serial gas_mprn gas_meter_serial : Option String) :
    ClientState :=
  { region := region
    email := email
    password := password
    api_key := api_key
    account := match account with | some a => .str a | none => .null
    mpan := mpan
    meter_serial := meter_serial
    gas_mprn := gas_mprn
    gas_meter_serial := gas_meter_serial
    token := .null
    refresh_token := .null
    token_expires := none
    graphql_url :=
      (dictGet GRAPHQL_URLS region).getD ((dictGet GRAPHQL_URLS "japan").getD "") }

/-- `OctopusClient.is_japan` (client.py lines 96-99). -/
def is_japan (s : ClientState) : Bool :=
  s.region == "japan"

/-!
Display records built by the client. `models.py` is not part of the sources
here; the fields below are exactly those passed at the construction sites in
`client.py`. The field named `end` in the source is `stop` here (`end` is a
Lean keyword).
-/

/-- `Account`, as constructed in `get_account` (client.py lines 262-268). -/
structure Account where
  number : Json
  balance : Json
  name : Json
  status : Json
  address : Json

/-- `Consumption`, as constructed in `_get_consumption_japan`
(lines 346-351). -/
structure Consumption where
  start : Int
  stop : Int
  kwh : ℚ
  cost_estimate : ℚ

/-- `GasConsumption`, as constructed in `get_gas_consumption`
(lines 466-471). -/
structure GasConsumption where
  start : Int
  stop : Int
  kwh : ℚ
  m3 : Option ℚ

/-- `Tariff`, as constructed in `get_tariff` (lines 625-634). -/
structure Tariff where
  name : Json
  product_code : Json
  standing_charge : Json
  rates : List (String × Json)
  off_peak_rate : Option Json
  peak_rate : Option Json
  off_peak_start : String
  off_peak_end : String

/-- `GasTariff`, as constructed in `get_gas_tariff` (lines 544-549). -/
structure GasTariff where
  name : Json
  product_code : Json
  standing_charge : Json
  unit_rate : Json

/-!  Token acquisition (`_get_token`, client.py lines 118-180). -/

/-- The token-acquisition POST that `_get_token` issues: one of the two
GraphQL mutations, identified by its `variables` payload. -/
inductive TokenRequest where
  | japanMutation (vars : Json)
  | ukMutation (vars : Json)

/-- Lift an `Optional[str]` field into the JSON payload it is serialized as. -/
def jstr : Option String → Json
  | some s => .str s
  | none => .null

/-- The branching on lines 125-167 of `_get_token` that picks the
authentication flow: Japan uses the refresh token when one is cached, else
email/password when both are truthy, else raises; every other region takes
the UK branch and uses the API-key mutation, raising when `api_key` is not
truthy. -/
def tokenRequestFor (s : ClientState) : Except OctoErr TokenRequest :=
  if is_japan s then
    if jsonTruthy s.refresh_token then
      .ok (.japanMutation (.obj [("input", .obj [("refreshToken", s.refresh_token)])]))
    else if optTruthy s.email && optTruthy s.password then
      .ok (.japanMutation (.obj [("input",
        .obj [("email", jstr s.email), ("password", jstr s.password)])]))
    else
      .error (.authenticationError (.str "Japan region requires email and password"))
  else
    if !optTruthy s.api_key then
      .error (.authenticationError (.str "UK region requires API key"))
    else
      .ok (.ukMutation (.obj [("key", jstr s.api_key)]))

/-- The cache check on line 120:
`self._token and self._token_expires and datetime.now() < self._token_expires`.
A `datetime` object is always truthy, so the middle conjunct is just
presence of an expiry. -/
def tokenCacheValid (s : ClientState) (now : Int) : Bool :=
  jsonTruthy s.token &&
    (match s.token_expires with
     | some e => decide (now < e)
     | none => false)

/-- The fresh-acquisition tail of `_get_token` (client.py lines 169-180):
check the error envelope of the mutation response `body` (raising
`AuthenticationError` with the message of the first error), store the token
and, when present, the refresh token, and record the expiry 55 minutes after
`nowAcq` (line 179: `datetime.now() + timedelta(minutes=55)`). A non-2xx
status would have raised at `raise_for_status` before this point and is
outside the model. -/
def freshTokenResult (s : ClientState) (nowAcq : Int) (body : Json) :
    Except OctoErr (Json × ClientState) := do
  let hasErrs ← (pyIn "errors" body).mapError .pyExc
  if hasErrs then
    let msg ← (firstErrorMessage body).mapError .pyExc
    .error (.authenticationError msg)
  else
    let d ← (pyKey body "data").mapError .pyExc
    let tokenData ← (pyKey d "obtainKrakenToken").mapError .pyExc
    let tok ← (pyKey tokenData "token").mapError .pyExc
    let hasRt ← (pyIn "refreshToken" tokenData).mapError .pyExc
    let rt ← if hasRt then (pyKey tokenData "refreshToken").mapError .pyExc
             else pure s.refresh_token
    .ok (tok,
      { s with token := tok, refresh_token := rt,
               token_expires := some (nowAcq + 55) })

/-- `_get_token` (client.py lines 118-180). `nowCheck` is the
`datetime.now()` of the cache check (line 120), `nowAcq` the one of line
179. Returns the result together with the list of token mutations posted
(empty on a cache hit or when the flow selection raises). -/
def get_token (s : ClientState) (nowCheck nowAcq : Int) (body : Json) :
    Except OctoErr (Json × ClientState) × List TokenRequest :=
  if tokenCacheValid s nowCheck then
    (.ok (s.token, s), [])
  else
    match tokenRequestFor s with
    | .error e => (.error e, [])
    | .ok req => (freshTokenResult s nowAcq body, [req])

/-!  Authenticated queries (`_graphql`, client.py lines 182-198). -/

/-- An HTTP POST as `_graphql` builds it (lines 187-191): the GraphQL URL
of the client, the token in the `Authorization` header, and the query with its
variables (`variables or {}`). -/
structure HttpRequest where
  url : String
  authorization : Json
  query : String
  vars : Json

/-- The request construction in `_graphql` (lines 187-191). -/
def graphqlPost (s : ClientState) (token : Json) (query : String)
    (vars : Option Json) : HttpRequest :=
  { url := s.graphql_url
    authorization := token
    query := query
    vars :=
      match vars with
      | some v => if jsonTruthy v then v else .obj []
      | none => .obj [] }

/-- The response unwrapping in `_graphql` (lines 193-198): raise `APIError`
with the message of the first error when the body has an `"errors"` key,
otherwise return the `"data"` field. -/
def graphqlUnwrap (body : Json) : Except OctoErr Json := do
  let hasErrs ← (pyIn "errors" body).mapError .pyExc
  if hasErrs then
    let msg ← (firstErrorMessage body).mapError .pyExc
    .error (.apiError msg)
  else
    (pyKey body "data").mapError .pyExc

/-!  Account (`_ensure_account` and `get_account`, client.py lines 204-268). -/

/-- `_ensure_account` (lines 204-228): return the stored account number when
truthy; for Japan, discover it from the viewer query (whose unwrapped `data`
is `viewerData`) and store it; otherwise raise `ConfigurationError`. -/
def ensure_account (s : ClientState) (viewerData : Json) :
    Except OctoErr (Json × ClientState) :=
  if jsonTruthy s.account then
    .ok (s.account, s)
  else if is_japan s then do
    let viewer ← (pyGetD viewerData "viewer" (.obj [])).mapError .pyExc
    let accounts ← (pyGetD viewer "accounts" (.arr [])).mapError .pyExc
    if jsonTruthy accounts then do
      let a0 ← (pyIndex accounts 0).mapError .pyExc
      let num ← (pyKey a0 "number").mapError .pyExc
      .ok (num, { s with account := num })
    else
      .error (.configurationError "No account found for this user")
  else
    .error (.configurationError "Account number required for UK region")

/-- Python `x / 100` on a JSON value (line 260): numbers divide, booleans are
ints, everything else raises `TypeError`. -/
def pyDiv100 (j : Json) : Except PyErr Json :=
  match j with
  | .num q => .ok (.num (q / 100))
  | .bool b => .ok (.num ((if b then (1 : ℚ) else 0) / 100))
  | _ => .error .typeError

/-- `get_account` (lines 230-268). `viewerData` feeds `_ensure_account`;
`acctData` is the unwrapped `data` of the `GetAccount` query. -/
def get_account (s : ClientState) (viewerData acctData : Json) :
    Except OctoErr (Account × ClientState) := do
  let (accountNumber, s1) ← ensure_account s viewerData
  let acc ← (pyKey acctData "account").mapError .pyExc
  let rawBalance ← (pyKey acc "balance").mapError .pyExc
  let balance ←
    if is_japan s1 then pure rawBalance
    else (pyDiv100 rawBalance).mapError .pyExc
  let billingName ← (pyKey acc "billingName").mapError .pyExc
  let statusVal ← (pyKey acc "status").mapError .pyExc
  let props ← (pyGetD acc "properties" .null).mapError .pyExc
  let address ←
    if jsonTruthy props then do
      let p0 ← (pyIndex props 0).mapError .pyExc
      (pyKey p0 "address").mapError .pyExc
    else
      pure (.str "")
  .ok ({ number := accountNumber
         balance := balance
         name := if jsonTruthy billingName then billingName else .str ""
         status := if jsonTruthy statusVal then statusVal else .str ""
         address := address }, s1)

/-!  Tariffs (`get_gas_tariff` lines 492-549, `get_tariff` lines 555-634).
The REST fetch of unit rates sits in a `try` that catches `httpx.HTTPError`
(transport errors and `raise_for_status`); its outcome is the `restResp`
argument, `.error ()` for a caught HTTP error, `.ok body` for a parsed 2xx
body. Errors while navigating the parsed body are not caught and propagate
as `pyExc`, exactly as in the source. -/

/-- Python dict assignment `d[k] = v` on an insertion-ordered dict as an
association list. -/
def assocSet : List (String × Json) → String → Json → List (String × Json)
  | [], k, v => [(k, v)]
  | (k0, v0) :: rest, k, v =>
    if k0 == k then (k0, v) :: rest else (k0, v0) :: assocSet rest k v

/-- Python `x < bound` for a JSON value against a number (lines 459, 618):
numbers compare, booleans are ints, everything else raises `TypeError`. -/
def pyLt (j : Json) (bound : ℚ) : Except PyErr Bool :=
  match j with
  | .num q => .ok (decide (q < bound))
  | .bool b => .ok (decide ((if b then (1 : ℚ) else 0) < bound))
  | _ => .error .typeError

/-- Python `j[:n]`, for the `[:4]` slice on line 616. -/
def pyTake (j : Json) (n : Nat) : Except PyErr (List Json) :=
  match j with
  | .arr xs => .ok (xs.take n)
  | .str s => .ok ((s.toList.take n).map (fun c => .str (String.mk [c])))
  | _ => .error .typeError

/-- The rate-classification loop of `get_tariff` (lines 612-623): the
`value_inc_vat` of each rate (default 0) goes to the `off_peak` slot when `< 15` and to
the `peak` slot otherwise. -/
def ratesLoop : List Json → List (String × Json) → Option Json → Option Json →
    Except PyErr (List (String × Json) × Option Json × Option Json)
  | [], rates, offPeak, peak => .ok (rates, offPeak, peak)
  | r :: rest, rates, offPeak, peak => do
    let val ← pyGetD r "value_inc_vat" (.num 0)
    let lt ← pyLt val 15
    if lt then ratesLoop rest (assocSet rates "off_peak" val) (some val) peak
    else ratesLoop rest (assocSet rates "peak" val) offPeak (some val)

/-- `get_tariff` (lines 555-634). `gqlData` is the unwrapped `GetTariff`
response; `restResp` the guarded REST fetch of unit rates. -/
def get_tariff (gqlData : Json) (restResp : Except Unit Json) :
    Except OctoErr (Option Tariff) := do
  let acct ← (pyGetD gqlData "account" (.obj [])).mapError .pyExc
  let agreements ← (pyGetD acct "electricityAgreements" (.arr [])).mapError .pyExc
  if !jsonTruthy agreements then
    .ok none
  else do
    let a0 ← (pyIndex agreements 0).mapError .pyExc
    let tariffData ← (pyGetD a0 "tariff" (.obj [])).mapError .pyExc
    let productCode ← (pyGetD tariffData "productCode" (.str "")).mapError .pyExc
    let ratesData : Json :=
      match restResp with
      | .error _ => .obj [("results", .arr [])]
      | .ok j => j
    let results ← (pyGetD ratesData "results" (.arr [])).mapError .pyExc
    let firstFour ← (pyTake results 4).mapError .pyExc
    let (rates, offPeak, peak) ← (ratesLoop firstFour [] none none).mapError .pyExc
    let nm ← (pyGetD tariffData "displayName" (.str "Unknown")).mapError .pyExc
    let sc ← (pyGetD tariffData "standingCharge" (.num 0)).mapError .pyExc
    .ok (some
      { name := nm
        product_code := productCode
        standing_charge := sc
        rates := rates
        off_peak_rate := offPeak
        peak_rate := peak
        off_peak_start := "23:30"
        off_peak_end := "05:30" })

/-- `get_gas_tariff` (lines 492-549). On a caught HTTP error the unit rate
is `0`; otherwise `results` (default `[{}]`) is indexed at 0 (an
`IndexError` there is NOT caught and propagates) and `value_inc_vat`
defaults to `0`. -/
def get_gas_tariff (gqlData : Json) (restResp : Except Unit Json) : Except OctoErr (Option GasTariff) := do
  let acct ← (pyGetD gqlData "account" (.obj [])).mapError .pyExc
  let agreements ← (pyGetD acct "gasAgreements" (.arr [])).mapError .pyExc
  if !jsonTruthy agreements then
    .ok none
  else do
    let a0 ← (pyIndex agreements 0).mapError .pyExc
    let tariffData ← (pyGetD a0 "tariff" (.obj [])).mapError .pyExc
    let productCode ← (pyGetD tariffData "productCode" (.str "")).mapError .pyExc
    let unitRate : Json ←
      match restResp with
      | .error _ => pure (.num 0)
      | .ok ratesData => do
        let results ← (pyGetD ratesData "results" (.arr [.obj []])).mapError .pyExc
        let r0 ← (pyIndex results 0).mapError .pyExc
        (pyGetD r0 "value_inc_vat" (.num 0)).mapError .pyExc
    let nm ← (pyGetD tariffData "displayName" (.str "Unknown")).mapError .pyExc
    let sc ← (pyGetD tariffData "standingCharge" (.num 0)).mapError .pyExc
    .ok (some
      { name := nm
        product_code := productCode
        standing_charge := sc
        unit_rate := unitRate })

/-!  Gas consumption (`get_gas_consumption`, client.py lines 412-473).
The REST result rows are taken pre-decoded: ISO-8601 interval timestamps are
already parsed to minute values (a failed parse would propagate uncaught in
the source, there is no `try` here) and `consumption` is the JSON number of
the row. -/

/-- One row of the REST consumption response, pre-decoded. -/
structure GasRawReading where
  interval_start : Int
  interval_stop : Int
  consumption : ℚ

/-- `M3_TO_KWH` (line 452). -/
def M3_TO_KWH : ℚ := 11.1868

/-- The body of the loop on lines 455-471: values `< 10` are treated as m³
(SMETS2) and converted; larger values are taken as kWh directly. -/
def gasRecordOf (r : GasRawReading) : GasConsumption :=
  if r.consumption < 10 then
    { start := r.interval_start, stop := r.interval_stop,
      kwh := r.consumption * M3_TO_KWH, m3 := some r.consumption }
  else
    { start := r.interval_start, stop := r.interval_stop,
      kwh := r.consumption, m3 := none }

/-- `get_gas_consumption` (lines 412-473), as a function of the decoded
`results` rows. -/
def get_gas_consumption (results : List GasRawReading) : List GasConsumption :=
  results.map gasRecordOf

/-!  Japan half-hourly consumption (`_get_consumption_japan`, client.py
lines 298-355). A raw reading is given by the outcomes of the three
extractions inside the `try` on lines 342-351:
`datetime.fromisoformat(r["startAt"].replace("Z", "+00:00"))`,
`float(r["value"])` and `float(r.get("costEstimate") or 0)`. The `except`
on line 352 catches only `ValueError`, `KeyError` and `TypeError`; a
`startAt` value that is present but not a string makes
`r["startAt"].replace` raise `AttributeError`, which is NOT in that tuple
and fails the whole call instead of skipping the reading. -/

/-- Outcome of evaluating `datetime.fromisoformat(r["startAt"].replace("Z",
"+00:00"))` on one reading. `missing` is a caught subscript failure
(`KeyError` for an absent key, or `TypeError` when the reading is not a
dict); `nonString` is a present non-string value, whose `.replace` raises
an uncaught `AttributeError`; `malformed` is a string that `fromisoformat`
rejects (`ValueError`, caught); `parses t` is a string parsing to the time
`t`. -/
inductive StartAtField where
  | missing
  | nonString
  | malformed
  | parses (t : Int)
deriving DecidableEq

/-- One entry of `halfHourlyReadings`, by the outcomes of its field
extractions. `value` is the outcome of `float(r["value"])` and
`costEstimate` of `float(r.get("costEstimate") or 0)`; every possible
failure of those two (`KeyError`, `TypeError`, `ValueError`) is caught by
line 352. -/
structure RawReading where
  startAt : StartAtField
  value : Except Unit ℚ
  costEstimate : Except Unit ℚ

/-- The `try` body on lines 342-353: build a `Consumption` whose end is 30
minutes after its start; `.ok none` when a caught exception skips the
reading, `.error .attributeError` for the uncaught non-string `startAt`. -/
def parseReading (r : RawReading) : Except PyErr (Option Consumption) :=
  match r.startAt with
  | .missing => .ok none
  | .nonString => .error .attributeError
  | .malformed => .ok none
  | .parses t =>
    match r.value, r.costEstimate with
    | .ok v, .ok c =>
      .ok (some { start := t, stop := t + 30, kwh := v, cost_estimate := c })
    | _, _ => .ok none

/-- An element of `electricitySupplyPoints`. -/
structure SupplyPoint where
  halfHourlyReadings : List RawReading

/-- An element of the `properties` of the account. -/
structure PropertyNode where
  electricitySupplyPoints : List SupplyPoint

/-- The sort key relation of line 355 (`key=lambda c: c.start`). -/
def consLE : Consumption → Consumption → Prop := fun a b => a.start ≤ b.start

instance : DecidableRel consLE := fun a b => Int.decLe a.start b.start

instance : IsTotal Consumption consLE := ⟨fun a b => Int.le_total a.start b.start⟩

instance : IsTrans Consumption consLE := ⟨fun _ _ _ => Int.le_trans⟩

/-- The readings of all supply points of all properties, in the order the
nested loops of lines 339-341 visit them. -/
def allReadings (props : List PropertyNode) : List RawReading :=
  props.flatMap fun p =>
    p.electricitySupplyPoints.flatMap fun sp => sp.halfHourlyReadings

/-- The reading loop of lines 337-353 over the flattened readings: append
each parsed record in order, skip readings whose caught extraction fails,
and propagate the uncaught `AttributeError`. -/
def collectReadings : List RawReading → Except PyErr (List Consumption)
  | [] => .ok []
  | r :: rest =>
    match parseReading r with
    | .error e => .error e
    | .ok none => collectReadings rest
    | .ok (some c) =>
      match collectReadings rest with
      | .error e => .error e
      | .ok cs => .ok (c :: cs)

/-- `_get_consumption_japan` (lines 298-355), as a function of the nested
`properties` list of the unwrapped response. The stable `sorted` of Python
is modelled by the stable `insertionSort`; an uncaught exception from the
loop propagates before the sort on line 355 is reached. -/
def get_consumption_japan (props : List PropertyNode) :
    Except PyErr (List Consumption) :=
  match collectReadings (allReadings props) with
  | .error e => .error e
  | .ok readings => .ok (List.insertionSort consLE readings)

/-!  Daily usage (`get_daily_usage`, client.py lines 391-406). -/

/-- Models `c.start.strftime("%Y-%m-%d")`: two start times render to the
same date string exactly when they fall on the same civil day, and the
rendering is injective in the day, so the key is taken to be the day index
of the minute timestamp. -/
def dayOf (t : Int) : Int := t.fdiv 1440

/-- `daily[day] = daily.get(day, 0) + c.kwh` (line 405) on the
insertion-ordered dict, as an association list. -/
def bumpDay : List (Int × ℚ) → Int → ℚ → List (Int × ℚ)
  | [], k, v => [(k, v)]
  | (k0, v0) :: rest, k, v =>
    if k0 = k then (k0, v0 + v) :: rest else (k0, v0) :: bumpDay rest k v

/-- `get_daily_usage` (lines 391-406), as a function of the fetched
consumption list. -/
def get_daily_usage (consumption : List Consumption) : List (Int × ℚ) :=
  consumption.foldl (fun d c => bumpDay d (dayOf c.start) c.kwh) []

/-!  ## Supporting lemmas -/

theorem lookupField_any {kvs : List (String × Json)} {k : String} {v : Json}
    (h : lookupField kvs k = some v) : (kvs.any fun kv => kv.1 == k) = true := by
  induction kvs with
  | nil => simp [lookupField] at h
  | cons hd tl ih =>
    obtain ⟨a, b⟩ := hd
    rw [lookupField] at h
    split at h
    · simp_all
    · simp_all

theorem pyKey_obj {kvs : List (String × Json)} {k : String} {v : Json}
    (h : lookupField kvs k = some v) : pyKey (.obj kvs) k = .ok v := by
  simp [pyKey, h]

theorem tokenCacheValid_iff (s : ClientState) (n : Int) :
    tokenCacheValid s n = true ↔
      (jsonTruthy s.token = true ∧ ∃ e, s.token_expires = some e ∧ n < e) := by
  unfold tokenCacheValid
  cases he : s.token_expires with
  | none => simp [he]
  | some e => simp [he, Bool.and_eq_true, decide_eq_true_eq]

theorem freshTokenResult_ok {s : ClientState} {n : Int} {body t : Json}
    {s' : ClientState} (h : freshTokenResult s n body = .ok (t, s')) :
    s'.token = t ∧ s'.token_expires = some (n + 55) ∧
    s'.region = s.region ∧ s'.email = s.email ∧ s'.password = s.password ∧
    s'.api_key = s.api_key ∧ s'.account = s.account ∧ s'.mpan = s.mpan ∧
    s'.meter_serial = s.meter_serial ∧ s'.gas_mprn = s.gas_mprn ∧
    s'.gas_meter_serial = s.gas_meter_serial ∧ s'.graphql_url = s.graphql_url := by
  unfold freshTokenResult at h
  simp only [bind, Except.bind, Except.mapError] at h
  repeat' split at h
  all_goals simp_all
  all_goals (obtain ⟨rfl, rfl⟩ := h; simp)

/-!  ## C1 -/

/-- C1: `_get_token` never reuses an expired bearer token. It returns the
cached token (with no mutation posted and the state unchanged) when the
token is present (truthy) and the check time is strictly before the recorded
expiry; whenever that cache condition fails, either the flow selection
raises before any acquisition, or exactly one token mutation is posted, and
any successful result records the new expiry exactly 55 minutes after the
acquisition time; conversely, a successful call that posted no mutation can
only be the valid-cache case. -/
theorem token_expiry_c1 (s : ClientState) (nowCheck nowAcq : Int) (body : Json) :
    ((jsonTruthy s.token = true ∧ ∃ e, s.token_expires = some e ∧ nowCheck < e) →
      get_token s nowCheck nowAcq body = (.ok (s.token, s), [])) ∧
    ((¬ (jsonTruthy s.token = true ∧ ∃ e, s.token_expires = some e ∧ nowCheck < e)) →
      ((∃ er, tokenRequestFor s = .error er ∧
          get_token s nowCheck nowAcq body = (.error er, [])) ∨
       (∃ req, tokenRequestFor s = .ok req ∧
          (get_token s nowCheck nowAcq body).2 = [req] ∧
          ∀ t s', (get_token s nowCheck nowAcq body).1 = .ok (t, s') →
            s'.token_expires = some (nowAcq + 55)))) ∧
    (∀ t s', (get_token s nowCheck nowAcq body).1 = .ok (t, s') →
      (get_token s nowCheck nowAcq body).2 = [] →
      (jsonTruthy s.token = true ∧ ∃ e, s.token_expires = some e ∧ nowCheck < e)) := by
  refine ⟨?_, ?_, ?_⟩
  · intro hvalid
    rw [get_token, if_pos ((tokenCacheValid_iff s nowCheck).2 hvalid)]
  · intro hinvalid
    have hcb : tokenCacheValid s nowCheck = false := by
      cases hc : tokenCacheValid s nowCheck
      · rfl
      · exact absurd ((tokenCacheValid_iff s nowCheck).1 hc) hinvalid
    rw [get_token, if_neg (by simp [hcb])]
    cases hr : tokenRequestFor s with
    | error er => exact Or.inl ⟨er, rfl, rfl⟩
    | ok req =>
      refine Or.inr ⟨req, rfl, rfl, ?_⟩
      intro t s' hok
      exact (freshTokenResult_ok hok).2.1
  · intro t s' hok hreq
    by_cases hc : tokenCacheValid s nowCheck = true
    · exact (tokenCacheValid_iff s nowCheck).1 hc
    · exfalso
      rw [get_token, if_neg hc] at hok hreq
      cases hr : tokenRequestFor s with
      | error er => rw [hr] at hok; simp at hok
      | ok req => rw [hr] at hreq; simp at hreq

/-- Concrete instance of `token_expiry_c1`: a client with a cached token
expiring at minute 100, checked at minute 50, returns the cached token with
no mutation posted. -/
def cachedStateW : ClientState :=
  { region := "japan", email := some "user", password := some "pw",
    api_key := none, account := .null, mpan := none, meter_serial := none,
    gas_mprn := none, gas_meter_serial := none, token := .str "tok",
    refresh_token := .null, token_expires := some 100,
    graphql_url := "https://api.oejp-kraken.energy/v1/graphql/" }

theorem token_expiry_c1_witness :
    get_token cachedStateW 50 0 .null = (.ok (.str "tok", cachedStateW), []) :=
  (token_expiry_c1 cachedStateW 50 0 .null).1
    ⟨by decide, 100, rfl, by decide⟩

/-!  ## C3 -/

/-- C3: the authentication flow picked by `_get_token`. Japan uses the
refresh-token mutation when a refresh token is cached (truthy), else the
email/password mutation when both are available (truthy), else raises
`AuthenticationError`; the UK region uses the API-key mutation when
`api_key` is available and raises `AuthenticationError` otherwise. -/
theorem auth_flow_c3 (s : ClientState) :
    (s.region = "japan" → jsonTruthy s.refresh_token = true →
      tokenRequestFor s =
        .ok (.japanMutation (.obj [("input",
          .obj [("refreshToken", s.refresh_token)])]))) ∧
    (s.region = "japan" → jsonTruthy s.refresh_token = false →
      optTruthy s.email = true → optTruthy s.password = true →
      tokenRequestFor s =
        .ok (.japanMutation (.obj [("input",
          .obj [("email", jstr s.email), ("password", jstr s.password)])]))) ∧
    (s.region = "japan" → jsonTruthy s.refresh_token = false →
      (optTruthy s.email = false ∨ optTruthy s.password = false) →
      tokenRequestFor s =
        .error (.authenticationError
          (.str "Japan region requires email and password"))) ∧
    (s.region = "uk" → optTruthy s.api_key = true →
      tokenRequestFor s = .ok (.ukMutation (.obj [("key", jstr s.api_key)]))) ∧
    (s.region = "uk" → optTruthy s.api_key = false →
      tokenRequestFor s =
        .error (.authenticationError (.str "UK region requires API key"))) := by
  refine ⟨?_, ?_, ?_, ?_, ?_⟩
  · intro hr hrt
    rw [tokenRequestFor, if_pos (by simp [is_japan, hr]), if_pos hrt]
  · intro hr hrt he hp
    rw [tokenRequestFor, if_pos (by simp [is_japan, hr]),
      if_neg (by simp [hrt]), if_pos (by simp [he, hp])]
  · intro hr hrt hep
    rw [tokenRequestFor, if_pos (by simp [is_japan, hr]),
      if_neg (by simp [hrt]),
      if_neg (by rcases hep with h | h <;> simp [h])]
  · intro hr hk
    have : is_japan s = false := by simp [is_japan, hr]
    rw [tokenRequestFor, if_neg (by simp [this]), if_neg (by simp [hk])]
  · intro hr hk
    have : is_japan s = false := by simp [is_japan, hr]
    rw [tokenRequestFor, if_neg (by simp [this]), if_pos (by simp [hk])]

/-- Concrete instances of `auth_flow_c3`, one per flow: Japan with a cached
refresh token, Japan with email/password only, Japan with no credentials,
UK with an API key, and UK without one. -/
def japanRefreshW : ClientState :=
  { cachedStateW with token := .null, refresh_token := .str "rt" }

def japanNoCredsW : ClientState :=
  { cachedStateW with token := .null, email := none, password := none }

def ukKeyW : ClientState :=
  { cachedStateW with region := "uk", api_key := some "sk_live_k" }

def ukNoKeyW : ClientState :=
  { cachedStateW with region := "uk", api_key := none }

theorem auth_flow_c3_witness :
    tokenRequestFor japanRefreshW =
      .ok (.japanMutation (.obj [("input",
        .obj [("refreshToken", .str "rt")])])) ∧
    tokenRequestFor cachedStateW =
      .ok (.japanMutation (.obj [("input",
        .obj [("email", .str "user"), ("password", .str "pw")])])) ∧
    tokenRequestFor japanNoCredsW =
      .error (.authenticationError
        (.str "Japan region requires email and password")) ∧
    tokenRequestFor ukKeyW = .ok (.ukMutation (.obj [("key", .str "sk_live_k")])) ∧
    tokenRequestFor ukNoKeyW =
      .error (.authenticationError (.str "UK region requires API key")) :=
  ⟨(auth_flow_c3 japanRefreshW).1 rfl (by decide),
   (auth_flow_c3 cachedStateW).2.1 rfl (by decide) (by decide) (by decide),
   (auth_flow_c3 japanNoCredsW).2.2.1 rfl (by decide) (Or.inl (by decide)),
   (auth_flow_c3 ukKeyW).2.2.2.1 rfl (by decide),
   (auth_flow_c3 ukNoKeyW).2.2.2.2 rfl (by decide)⟩

/-!  ## C4 -/

/-- C4: the GraphQL URL of a client is the endpoint registered for its
region in `GRAPHQL_URLS` — the Japan endpoint for `"japan"`, the UK endpoint
for `"uk"`, and the Japan endpoint as fallback for any other region value —
and every `_graphql` call posts to exactly that URL. -/
theorem dual_region_url_c4 :
    dictGet GRAPHQL_URLS "japan" = some "https://api.oejp-kraken.energy/v1/graphql/" ∧
    dictGet GRAPHQL_URLS "uk" = some "https://api.octopus.energy/v1/graphql/" ∧
    (∀ e p a acct mp ms gm gs,
      (initClient e p a acct "japan" mp ms gm gs).graphql_url =
        "https://api.oejp-kraken.energy/v1/graphql/") ∧
    (∀ e p a acct mp ms gm gs,
      (initClient e p a acct "uk" mp ms gm gs).graphql_url =
        "https://api.octopus.energy/v1/graphql/") ∧
    (∀ e p a acct r mp ms gm gs, r ≠ "japan" → r ≠ "uk" →
      (initClient e p a acct r mp ms gm gs).graphql_url =
        "https://api.oejp-kraken.energy/v1/graphql/") ∧
    (∀ s tok q v, (graphqlPost s tok q v).url = s.graphql_url) := by
  refine ⟨rfl, rfl, ?_, ?_, ?_, ?_⟩
  · intro e p a acct mp ms gm gs; rfl
  · intro e p a acct mp ms gm gs; rfl
  · intro e p a acct r mp ms gm gs hj hu
    show (dictGet GRAPHQL_URLS r).getD _ = _
    rw [GRAPHQL_URLS, dictGet, if_neg (by simp [Ne.symm hu]), dictGet,
      if_neg (by simp [Ne.symm hj]), dictGet]
    rfl
  · intro s tok q v; rfl

/-- Concrete instance of `dual_region_url_c4`: an unknown region value falls
back to the Japan endpoint, and a posted query goes to the URL stored in the
client. -/
theorem dual_region_url_c4_witness :
    (initClient none none none none "fr" none none none none).graphql_url =
      "https://api.oejp-kraken.energy/v1/graphql/" ∧
    (graphqlPost cachedStateW .null "query" none).url = cachedStateW.graphql_url :=
  ⟨dual_region_url_c4.2.2.2.2.1 none none none none "fr" none none none none
      (by decide) (by decide),
   dual_region_url_c4.2.2.2.2.2 cachedStateW .null "query" none⟩

/-!  ## C2 -/

theorem lookupField_none_any {kvs : List (String × Json)} {k : String}
    (h : lookupField kvs k = none) : (kvs.any fun kv => kv.1 == k) = false := by
  induction kvs with
  | nil => simp
  | cons hd tl ih =>
    obtain ⟨a, b⟩ := hd
    rw [lookupField] at h
    split at h
    · exact absurd h (by simp)
    · rename_i hne
      simp only [List.any_cons, Bool.or_eq_false_iff]
      exact ⟨by simpa using hne, ih h⟩

theorem envelope_error_eval {kvs : List (String × Json)} {e0 : Json}
    {rest : List Json} {m : Json}
    (herr : lookupField kvs "errors" = some (.arr (e0 :: rest)))
    (hmsg : pyKey e0 "message" = .ok m) :
    pyIn "errors" (.obj kvs) = .ok true ∧
    firstErrorMessage (.obj kvs) = .ok m := by
  constructor
  · simp [pyIn, lookupField_any herr]
  · simp [firstErrorMessage, bind, Except.bind, pyKey_obj herr, pyIndex, hmsg]

/-- C2: the uniform error envelope. For a well-formed envelope — an object
whose `"errors"` value, when present, is a nonempty array whose first entry
carries a `"message"` — `_graphql` raises `APIError` with the message of the
first error exactly when the `"errors"` key is present, and returns the
`"data"` field otherwise; the fresh-acquisition path of `_get_token`
behaves the same way with `AuthenticationError`. -/
theorem error_envelope_c2 (body : Json) :
    (∀ kvs e0 rest m, body = .obj kvs →
      lookupField kvs "errors" = some (.arr (e0 :: rest)) →
      pyKey e0 "message" = .ok m →
      graphqlUnwrap body = .error (.apiError m)) ∧
    (∀ kvs payload, body = .obj kvs →
      lookupField kvs "errors" = none →
      lookupField kvs "data" = some payload →
      graphqlUnwrap body = .ok payload) ∧
    (∀ m, graphqlUnwrap body = .error (.apiError m) →
      pyIn "errors" body = .ok true) ∧
    (∀ s n kvs e0 rest m, body = .obj kvs →
      lookupField kvs "errors" = some (.arr (e0 :: rest)) →
      pyKey e0 "message" = .ok m →
      freshTokenResult s n body = .error (.authenticationError m)) ∧
    (∀ s n m, freshTokenResult s n body = .error (.authenticationError m) →
      pyIn "errors" body = .ok true) := by
  refine ⟨?_, ?_, ?_, ?_, ?_⟩
  · rintro kvs e0 rest m rfl herr hmsg
    obtain ⟨h1, h2⟩ := envelope_error_eval herr hmsg
    simp [graphqlUnwrap, bind, Except.bind, Except.mapError, h1, h2]
  · rintro kvs payload rfl herr hdata
    have h1 : pyIn "errors" (.obj kvs) = .ok false := by
      simp [pyIn, lookupField_none_any herr]
    simp [graphqlUnwrap, bind, Except.bind, Except.mapError, h1,
      pyKey_obj hdata]
  · intro m h
    cases h1 : pyIn "errors" body with
    | error e =>
      rw [graphqlUnwrap] at h
      simp [bind, Except.bind, Except.mapError, h1] at h
    | ok hasErrs =>
      cases hasErrs with
      | true => rfl
      | false =>
        rw [graphqlUnwrap] at h
        simp only [bind, Except.bind, Except.mapError, h1] at h
        cases h2 : pyKey body "data" with
        | error e => rw [h2] at h; simp at h
        | ok d => rw [h2] at h; simp at h
  · rintro s n kvs e0 rest m rfl herr hmsg
    obtain ⟨h1, h2⟩ := envelope_error_eval herr hmsg
    simp [freshTokenResult, bind, Except.bind, Except.mapError, h1, h2]
  · intro s n m h
    cases h1 : pyIn "errors" body with
    | error e =>
      rw [freshTokenResult] at h
      simp [bind, Except.bind, Except.mapError, h1] at h
    | ok hasErrs =>
      cases hasErrs with
      | true => rfl
      | false =>
        rw [freshTokenResult] at h
        simp only [bind, Except.bind, Except.mapError, h1] at h
        cases h2 : pyKey body "data" with
        | error e => rw [h2] at h; simp at h
        | ok d =>
          rw [h2] at h
          simp only [Except.mapError, Bool.false_eq_true, if_false] at h
          cases h3 : pyKey d "obtainKrakenToken" with
          | error e => rw [h3] at h; simp at h
          | ok td =>
            rw [h3] at h
            simp only [Except.mapError] at h
            cases h4 : pyKey td "token" with
            | error e => rw [h4] at h; simp at h
            | ok tok =>
              rw [h4] at h
              simp only [Except.mapError] at h
              cases h5 : pyIn "refreshToken" td with
              | error e => rw [h5] at h; simp at h
              | ok hasRt =>
                rw [h5] at h
                simp only [Except.mapError] at h
                cases hasRt with
                | true =>
                  simp only [if_true] at h
                  cases h6 : pyKey td "refreshToken" with
                  | error e => rw [h6] at h; simp at h
                  | ok rt => rw [h6] at h; simp at h
                | false => simp [pure, Except.pure] at h

/-- Concrete instances of `error_envelope_c2`: an envelope with one error
raises `APIError` from `_graphql` and `AuthenticationError` from the token
path, and an envelope without `"errors"` yields its `"data"` field. -/
def errBodyW : Json := .obj [("errors", .arr [.obj [("message", .str "boom")]])]

def okBodyW : Json := .obj [("data", .obj [("x", .num 1)])]

theorem error_envelope_c2_witness :
    graphqlUnwrap errBodyW = .error (.apiError (.str "boom")) ∧
    graphqlUnwrap okBodyW = .ok (.obj [("x", .num 1)]) ∧
    freshTokenResult cachedStateW 0 errBodyW =
      .error (.authenticationError (.str "boom")) :=
  ⟨(error_envelope_c2 errBodyW).1 _ _ _ _ rfl rfl rfl,
   (error_envelope_c2 okBodyW).2.1 _ _ rfl rfl rfl,
   (error_envelope_c2 errBodyW).2.2.2.1 cachedStateW 0 _ _ _ _ rfl rfl rfl⟩

/-!  ## C5 -/

theorem get_account_ok {s : ClientState} {vd acctData acc : Json} {a : Account}
    {s' : ClientState}
    (hcached : jsonTruthy s.account = true)
    (hacc : pyKey acctData "account" = .ok acc)
    (hok : get_account s vd acctData = .ok (a, s')) :
    s' = s ∧
    ∃ rawBal balance bn st props addr,
      pyKey acc "balance" = .ok rawBal ∧
      ((is_japan s = true ∧ balance = rawBal) ∨
       (is_japan s = false ∧ pyDiv100 rawBal = .ok balance)) ∧
      pyKey acc "billingName" = .ok bn ∧
      pyKey acc "status" = .ok st ∧
      pyGetD acc "properties" .null = .ok props ∧
      ((jsonTruthy props = false ∧ addr = .str "") ∨
       (jsonTruthy props = true ∧
        ∃ p0, pyIndex props 0 = .ok p0 ∧ pyKey p0 "address" = .ok addr)) ∧
      a = { number := s.account, balance := balance,
            name := if jsonTruthy bn then bn else .str "",
            status := if jsonTruthy st then st else .str "",
            address := addr } := by
  rw [get_account] at hok
  simp only [ensure_account, hcached, if_true, bind, Except.bind, Except.mapError] at hok
  rw [hacc] at hok
  simp only [Except.mapError] at hok
  cases hb : pyKey acc "balance" with
  | error e => rw [hb] at hok; simp at hok
  | ok rawBal =>
    rw [hb] at hok
    simp only [Except.mapError] at hok
    cases hj : is_japan s with
    | true =>
      rw [hj] at hok
      simp only [if_true, pure, Except.pure] at hok
      cases hbn : pyKey acc "billingName" with
      | error e => rw [hbn] at hok; simp at hok
      | ok bn =>
        rw [hbn] at hok
        simp only [Except.mapError] at hok
        cases hst : pyKey acc "status" with
        | error e => rw [hst] at hok; simp at hok
        | ok st =>
          rw [hst] at hok
          simp only [Except.mapError] at hok
          cases hpr : pyGetD acc "properties" .null with
          | error e => rw [hpr] at hok; simp at hok
          | ok props =>
            rw [hpr] at hok
            simp only [Except.mapError] at hok
            cases htr : jsonTruthy props with
            | false =>
              rw [htr] at hok
              simp only [Bool.false_eq_true, if_false, pure, Except.pure] at hok
              obtain ⟨rfl, rfl⟩ := by
                simpa using hok
              exact ⟨rfl, rawBal, rawBal, bn, st, props, .str "",
                rfl, Or.inl ⟨rfl, rfl⟩, rfl, rfl, rfl, Or.inl ⟨htr, rfl⟩, rfl⟩
            | true =>
              rw [htr] at hok
              simp only [if_true] at hok
              cases hp0 : pyIndex props 0 with
              | error e => rw [hp0] at hok; simp at hok
              | ok p0 =>
                rw [hp0] at hok
                simp only [Except.mapError] at hok
                cases had : pyKey p0 "address" with
                | error e => rw [had] at hok; simp at hok
                | ok av =>
                  rw [had] at hok
                  simp only [Except.mapError] at hok
                  obtain ⟨rfl, rfl⟩ := by
                    simpa using hok
                  exact ⟨rfl, rawBal, rawBal, bn, st, props, av,
                    rfl, Or.inl ⟨rfl, rfl⟩, rfl, rfl, rfl,
                    Or.inr ⟨htr, p0, hp0, had⟩, rfl⟩
    | false =>
      rw [hj] at hok
      simp only [Bool.false_eq_true, if_false] at hok
      cases hdv : pyDiv100 rawBal with
      | error e => rw [hdv] at hok; simp at hok
      | ok balance =>
        rw [hdv] at hok
        simp only [Except.mapError] at hok
        cases hbn : pyKey acc "billingName" with
        | error e => rw [hbn] at hok; simp at hok
        | ok bn =>
          rw [hbn] at hok
          simp only [Except.mapError] at hok
          cases hst : pyKey acc "status" with
          | error e => rw [hst] at hok; simp at hok
          | ok st =>
            rw [hst] at hok
            simp only [Except.mapError] at hok
            cases hpr : pyGetD acc "properties" .null with
            | error e => rw [hpr] at hok; simp at hok
            | ok props =>
              rw [hpr] at hok
              simp only [Except.mapError] at hok
              cases htr : jsonTruthy props with
              | false =>
                rw [htr] at hok
                simp only [Bool.false_eq_true, if_false, pure, Except.pure] at hok
                obtain ⟨rfl, rfl⟩ := by
                  simpa using hok
                exact ⟨rfl, rawBal, balance, bn, st, props, .str "",
                  rfl, Or.inr ⟨rfl, hdv⟩, rfl, rfl, rfl, Or.inl ⟨htr, rfl⟩, rfl⟩
              | true =>
                rw [htr] at hok
                simp only [if_true] at hok
                cases hp0 : pyIndex props 0 with
                | error e => rw [hp0] at hok; simp at hok
                | ok p0 =>
                  rw [hp0] at hok
                  simp only [Except.mapError] at hok
                  cases had : pyKey p0 "address" with
                  | error e => rw [had] at hok; simp at hok
                  | ok av =>
                    rw [had] at hok
                    simp only [Except.mapError] at hok
                    obtain ⟨rfl, rfl⟩ := by
                      simpa using hok
                    exact ⟨rfl, rawBal, balance, bn, st, props, av,
                      rfl, Or.inr ⟨rfl, hdv⟩, rfl, rfl, rfl,
                      Or.inr ⟨htr, p0, hp0, had⟩, rfl⟩

theorem pyIndex_ok_truthy {props p0 : Json} (h : pyIndex props 0 = .ok p0) :
    jsonTruthy props = true := by
  cases props with
  | arr xs => cases xs with
    | nil => simp [pyIndex] at h
    | cons hd tl => simp [jsonTruthy]
  | str s =>
    have hne : s ≠ "" := by
      intro he
      subst he
      simp [pyIndex, String.toList_empty] at h
    simp [jsonTruthy, hne]
  | null => simp [pyIndex] at h
  | bool b => simp [pyIndex] at h
  | num q => simp [pyIndex] at h
  | obj kvs => simp [pyIndex] at h

/-- C5: `get_account` normalization. With the account number already cached
and the response carrying an `"account"` object, a successful call leaves
the state unchanged and returns a record whose balance is the raw balance
for the Japan region and the raw balance divided by 100 for the UK region,
whose name and status fall back to the empty string when the raw fields are
null, and whose address is the empty string when no properties are present
and the address of the first property otherwise. -/
theorem account_normalize_c5 (s : ClientState) (vd acctData acc : Json)
    (a : Account) (s' : ClientState)
    (hcached : jsonTruthy s.account = true)
    (hacc : pyKey acctData "account" = .ok acc)
    (hok : get_account s vd acctData = .ok (a, s')) :
    s' = s ∧ a.number = s.account ∧
    (∀ b : ℚ, pyKey acc "balance" = .ok (.num b) →
      (s.region = "japan" → a.balance = .num b) ∧
      (s.region = "uk" → a.balance = .num (b / 100))) ∧
    (pyKey acc "billingName" = .ok .null → a.name = .str "") ∧
    (pyKey acc "status" = .ok .null → a.status = .str "") ∧
    (∀ props, pyGetD acc "properties" .null = .ok props →
      jsonTruthy props = false → a.address = .str "") ∧
    (∀ props p0 av, pyGetD acc "properties" .null = .ok props →
      pyIndex props 0 = .ok p0 → pyKey p0 "address" = .ok av →
      a.address = av) := by
  obtain ⟨rfl, rawBal, balance, bn, st, props, addr, hb, hbr, hbn, hst, hpr, haddr, rfl⟩ :=
    get_account_ok hcached hacc hok
  refine ⟨rfl, rfl, ?_, ?_, ?_, ?_, ?_⟩
  · intro b hb2
    rw [hb] at hb2
    obtain rfl : rawBal = .num b := Except.ok.inj hb2
    constructor
    · intro hr
      rcases hbr with ⟨-, rfl⟩ | ⟨hjf, -⟩
      · rfl
      · rw [is_japan, hr] at hjf; simp at hjf
    · intro hr
      rcases hbr with ⟨hjt, -⟩ | ⟨-, hdv⟩
      · rw [is_japan, hr] at hjt; simp at hjt
      · rw [pyDiv100] at hdv
        obtain rfl : balance = .num (b / 100) := (Except.ok.inj hdv).symm
        rfl
  · intro hbn2
    rw [hbn] at hbn2
    obtain rfl : bn = .null := Except.ok.inj hbn2
    simp [jsonTruthy]
  · intro hst2
    rw [hst] at hst2
    obtain rfl : st = .null := Except.ok.inj hst2
    simp [jsonTruthy]
  · intro props2 hpr2 htr2
    rw [hpr] at hpr2
    obtain rfl : props = props2 := Except.ok.inj hpr2
    rcases haddr with ⟨-, rfl⟩ | ⟨htr, -⟩
    · rfl
    · rw [htr] at htr2; simp at htr2
  · intro props2 p0 av hpr2 hp02 had2
    rw [hpr] at hpr2
    obtain rfl : props = props2 := Except.ok.inj hpr2
    rcases haddr with ⟨htrf, -⟩ | ⟨-, p0h, hp0h, hadh⟩
    · rw [pyIndex_ok_truthy hp02] at htrf; simp at htrf
    · rw [hp0h] at hp02
      obtain rfl : p0h = p0 := Except.ok.inj hp02
      rw [hadh] at had2
      exact (Except.ok.inj had2)

/-- Concrete instances of `account_normalize_c5`: a Japan account with a
null name/status, one property, and raw balance 1234 yen, and a UK account
whose raw balance 1234 pence becomes 12.34 pounds. -/
def japanAcctStateW : ClientState := { cachedStateW with account := .str "A-1" }

def ukAcctStateW : ClientState := { ukKeyW with account := .str "A-2" }

def acctDataW : Json := .obj [("account", .obj [
  ("balance", .num 1234), ("billingName", .null), ("status", .null),
  ("properties", .arr [.obj [("address", .str "Tokyo")]])])]

def acctRecJW : Account :=
  { number := .str "A-1", balance := .num 1234, name := .str "",
    status := .str "", address := .str "Tokyo" }

def acctRecUKW : Account :=
  { number := .str "A-2", balance := .num (1234 / 100), name := .str "",
    status := .str "", address := .str "Tokyo" }

theorem account_normalize_c5_witness :
    (acctRecJW.balance = .num 1234 ∧ acctRecJW.name = .str "" ∧
     acctRecJW.status = .str "" ∧ acctRecJW.address = .str "Tokyo") ∧
    acctRecUKW.balance = .num (1234 / 100) :=
  let hJ := account_normalize_c5 japanAcctStateW .null acctDataW
    (.obj [("balance", .num 1234), ("billingName", .null), ("status", .null),
      ("properties", .arr [.obj [("address", .str "Tokyo")]])])
    acctRecJW japanAcctStateW rfl rfl rfl
  let hUK := account_normalize_c5 ukAcctStateW .null acctDataW
    (.obj [("balance", .num 1234), ("billingName", .null), ("status", .null),
      ("properties", .arr [.obj [("address", .str "Tokyo")]])])
    acctRecUKW ukAcctStateW rfl rfl rfl
  ⟨⟨(hJ.2.2.1 1234 rfl).1 rfl, hJ.2.2.2.1 rfl, hJ.2.2.2.2.1 rfl,
    hJ.2.2.2.2.2.2 _ _ _ rfl rfl rfl⟩,
   (hUK.2.2.1 1234 rfl).2 rfl⟩

/-!  ## C6 -/

/-- C6: when the REST fetch of unit rates is caught as an HTTP error,
`get_tariff` still returns a `Tariff` with an empty rates map and no
peak/off-peak rates instead of propagating the exception, and
`get_gas_tariff` still returns a `GasTariff` with unit rate 0. -/
theorem rest_error_suppression_c6 :
    (∀ gql e t, get_tariff gql (.error e) = .ok (some t) →
      t.rates = [] ∧ t.off_peak_rate = none ∧ t.peak_rate = none) ∧
    (∀ gql e g, get_gas_tariff gql (.error e) = .ok (some g) →
      g.unit_rate = .num 0) := by
  constructor
  · intro gql e t h
    rw [get_tariff] at h
    simp only [bind, Except.bind, Except.mapError] at h
    cases h1 : pyGetD gql "account" (.obj []) with
    | error er => rw [h1] at h; simp at h
    | ok acct =>
      rw [h1] at h
      simp only [Except.mapError] at h
      cases h2 : pyGetD acct "electricityAgreements" (.arr []) with
      | error er => rw [h2] at h; simp at h
      | ok agreements =>
        rw [h2] at h
        simp only [Except.mapError] at h
        cases h3 : jsonTruthy agreements with
        | false => rw [h3] at h; simp at h
        | true =>
          rw [h3] at h
          simp only [Bool.not_true, Bool.false_eq_true, if_false] at h
          cases h4 : pyIndex agreements 0 with
          | error er => rw [h4] at h; simp at h
          | ok a0 =>
            rw [h4] at h
            simp only [Except.mapError] at h
            cases h5 : pyGetD a0 "tariff" (.obj []) with
            | error er => rw [h5] at h; simp at h
            | ok tariffData =>
              rw [h5] at h
              simp only [Except.mapError] at h
              cases h6 : pyGetD tariffData "productCode" (.str "") with
              | error er => rw [h6] at h; simp at h
              | ok productCode =>
                rw [h6] at h
                simp only [Except.mapError] at h
                have hres : pyGetD (Json.obj [("results", Json.arr [])])
                    "results" (Json.arr []) = Except.ok (Json.arr []) := rfl
                rw [hres] at h
                simp only [Except.mapError] at h
                have htake : pyTake (Json.arr []) 4 = Except.ok [] := rfl
                rw [htake] at h
                simp only [Except.mapError] at h
                have hloop : ratesLoop [] [] none none =
                    Except.ok ([], none, none) := rfl
                rw [hloop] at h
                simp only [Except.mapError] at h
                cases h7 : pyGetD tariffData "displayName" (.str "Unknown") with
                | error er => rw [h7] at h; simp at h
                | ok nm =>
                  rw [h7] at h
                  simp only [Except.mapError] at h
                  cases h8 : pyGetD tariffData "standingCharge" (.num 0) with
                  | error er => rw [h8] at h; simp at h
                  | ok sc =>
                    rw [h8] at h
                    simp only [Except.mapError] at h
                    obtain ⟨rfl⟩ : _ = t := by
                      have := Except.ok.inj h
                      exact Option.some.inj this
                    exact ⟨rfl, rfl, rfl⟩
  · intro gql e g h
    rw [get_gas_tariff] at h
    simp only [bind, Except.bind, Except.mapError] at h
    cases h1 : pyGetD gql "account" (.obj []) with
    | error er => rw [h1] at h; simp at h
    | ok acct =>
      rw [h1] at h
      simp only [Except.mapError] at h
      cases h2 : pyGetD acct "gasAgreements" (.arr []) with
      | error er => rw [h2] at h; simp at h
      | ok agreements =>
        rw [h2] at h
        simp only [Except.mapError] at h
        cases h3 : jsonTruthy agreements with
        | false => rw [h3] at h; simp at h
        | true =>
          rw [h3] at h
          simp only [Bool.not_true, Bool.false_eq_true, if_false] at h
          cases h4 : pyIndex agreements 0 with
          | error er => rw [h4] at h; simp at h
          | ok a0 =>
            rw [h4] at h
            simp only [Except.mapError] at h
            cases h5 : pyGetD a0 "tariff" (.obj []) with
            | error er => rw [h5] at h; simp at h
            | ok tariffData =>
              rw [h5] at h
              simp only [Except.mapError] at h
              cases h6 : pyGetD tariffData "productCode" (.str "") with
              | error er => rw [h6] at h; simp at h
              | ok productCode =>
                rw [h6] at h
                simp only [Except.mapError, pure, Except.pure] at h
                cases h7 : pyGetD tariffData "displayName" (.str "Unknown") with
                | error er => rw [h7] at h; simp at h
                | ok nm =>
                  rw [h7] at h
                  simp only [Except.mapError] at h
                  cases h8 : pyGetD tariffData "standingCharge" (.num 0) with
                  | error er => rw [h8] at h; simp at h
                  | ok sc =>
                    rw [h8] at h
                    simp only [Except.mapError] at h
                    obtain ⟨rfl⟩ : _ = g := by
                      have := Except.ok.inj h
                      exact Option.some.inj this
                    rfl

/-- Concrete instances of `rest_error_suppression_c6`: with one active
agreement and a failing REST fetch, `get_tariff` returns a tariff with no
rates and `get_gas_tariff` one with unit rate 0. -/
def tariffGqlW : Json := .obj [("account", .obj [
  ("electricityAgreements", .arr [.obj [("tariff", .obj [
    ("displayName", .str "Agile"), ("productCode", .str "AGILE-24"),
    ("standingCharge", .num 50)])]])])]

def gasGqlW : Json := .obj [("account", .obj [
  ("gasAgreements", .arr [.obj [("tariff", .obj [
    ("displayName", .str "Gas"), ("productCode", .str "GAS-1"),
    ("standingCharge", .num 30)])]])])]

def tariffRecW : Tariff :=
  { name := .str "Agile", product_code := .str "AGILE-24",
    standing_charge := .num 50, rates := [], off_peak_rate := none,
    peak_rate := none, off_peak_start := "23:30", off_peak_end := "05:30" }

def gasTariffRecW : GasTariff :=
  { name := .str "Gas", product_code := .str "GAS-1",
    standing_charge := .num 30, unit_rate := .num 0 }

theorem rest_error_suppression_c6_witness :
    tariffRecW.rates = [] ∧ tariffRecW.off_peak_rate = none ∧
    tariffRecW.peak_rate = none ∧ gasTariffRecW.unit_rate = .num 0 :=
  let h1 := rest_error_suppression_c6.1 tariffGqlW () tariffRecW rfl
  let h2 := rest_error_suppression_c6.2 gasGqlW () gasTariffRecW rfl
  ⟨h1.1, h1.2.1, h1.2.2, h2⟩

/-!  ## C7 -/

/-- Fresh Japan client with no cached token and no account number. -/
def nocacheS0 : ClientState :=
  { region := "japan", email := some "user", password := some "pw",
    api_key := none, account := .null, mpan := none, meter_serial := none,
    gas_mprn := none, gas_meter_serial := none, token := .null,
    refresh_token := .null, token_expires := none,
    graphql_url := "https://api.oejp-kraken.energy/v1/graphql/" }

/-- A successful token-mutation response. -/
def tokenBodyW : Json := .obj [("data", .obj [("obtainKrakenToken", .obj [
  ("token", .str "tok1"), ("refreshToken", .str "r1")])])]

/-- The state after the acquisition at time 0. -/
def nocacheS1 : ClientState :=
  { nocacheS0 with token := .str "tok1", refresh_token := .str "r1",
                   token_expires := some 55 }

/-- Counterexample to C7: `_get_token` does store remote response data in
client state for reuse. At time 0 the fresh client acquires a token, which
mutates the `token`, `refresh_token` and `token_expires` fields (not the
HTTP handle), and a later call at time 10 returns the stored token while
posting no request at all. -/
theorem no_cache_c7_counterexample :
    get_token nocacheS0 0 0 tokenBodyW =
      (.ok (.str "tok1", nocacheS1),
       [.japanMutation (.obj [("input",
         .obj [("email", .str "user"), ("password", .str "pw")])])]) ∧
    nocacheS1.token ≠ nocacheS0.token ∧
    get_token nocacheS1 10 99 .null = (.ok (.str "tok1", nocacheS1), []) := by
  refine ⟨rfl, ?_, rfl⟩
  simp [nocacheS0, nocacheS1]

/-- C7 amended: the client caches exactly the authentication artifacts and
the account number. A successful `_get_token` mutates at most `token`,
`refresh_token` and `token_expires`; a successful `_ensure_account` mutates
at most `account` (to the number it returns); neither touches any other
client field (the HTTP handle is outside the model). -/
theorem cache_frame_c7_amended (s : ClientState) (n1 n2 : Int) (body vd : Json) :
    (∀ t s', (get_token s n1 n2 body).1 = .ok (t, s') →
      s'.region = s.region ∧ s'.email = s.email ∧ s'.password = s.password ∧
      s'.api_key = s.api_key ∧ s'.account = s.account ∧ s'.mpan = s.mpan ∧
      s'.meter_serial = s.meter_serial ∧ s'.gas_mprn = s.gas_mprn ∧
      s'.gas_meter_serial = s.gas_meter_serial ∧
      s'.graphql_url = s.graphql_url) ∧
    (∀ a s', ensure_account s vd = .ok (a, s') →
      s'.account = a ∧
      s'.region = s.region ∧ s'.email = s.email ∧ s'.password = s.password ∧
      s'.api_key = s.api_key ∧ s'.mpan = s.mpan ∧
      s'.meter_serial = s.meter_serial ∧ s'.gas_mprn = s.gas_mprn ∧
      s'.gas_meter_serial = s.gas_meter_serial ∧ s'.token = s.token ∧
      s'.refresh_token = s.refresh_token ∧
      s'.token_expires = s.token_expires ∧
      s'.graphql_url = s.graphql_url) := by
  constructor
  · intro t s' hok
    rw [get_token] at hok
    cases hc : tokenCacheValid s n1 with
    | true =>
      rw [hc] at hok
      simp only [if_true] at hok
      obtain ⟨-, rfl⟩ : s.token = t ∧ s = s' := by simpa using hok
      exact ⟨rfl, rfl, rfl, rfl, rfl, rfl, rfl, rfl, rfl, rfl⟩
    | false =>
      rw [hc] at hok
      simp only [Bool.false_eq_true, if_false] at hok
      cases hr : tokenRequestFor s with
      | error er => rw [hr] at hok; simp at hok
      | ok req =>
        rw [hr] at hok
        simp only at hok
        obtain ⟨-, -, h3, h4, h5, h6, h7, h8, h9, h10, h11, h12⟩ :=
          freshTokenResult_ok hok
        exact ⟨h3, h4, h5, h6, h7, h8, h9, h10, h11, h12⟩
  · intro a s' hok
    rw [ensure_account] at hok
    cases hc : jsonTruthy s.account with
    | true =>
      rw [hc] at hok
      simp only [if_true] at hok
      obtain ⟨rfl, rfl⟩ : s.account = a ∧ s = s' := by simpa using hok
      exact ⟨rfl, rfl, rfl, rfl, rfl, rfl, rfl, rfl, rfl, rfl, rfl, rfl, rfl⟩
    | false =>
      rw [hc] at hok
      simp only [Bool.false_eq_true, if_false] at hok
      cases hj : is_japan s with
      | false => rw [hj] at hok; simp at hok
      | true =>
        rw [hj] at hok
        simp only [if_true, bind, Except.bind, Except.mapError] at hok
        cases h1 : pyGetD vd "viewer" (.obj []) with
        | error er => rw [h1] at hok; simp at hok
        | ok viewer =>
          rw [h1] at hok
          simp only [Except.mapError] at hok
          cases h2 : pyGetD viewer "accounts" (.arr []) with
          | error er => rw [h2] at hok; simp at hok
          | ok accounts =>
            rw [h2] at hok
            simp only [Except.mapError] at hok
            cases h3 : jsonTruthy accounts with
            | false => rw [h3] at hok; simp at hok
            | true =>
              rw [h3] at hok
              simp only [if_true] at hok
              cases h4 : pyIndex accounts 0 with
              | error er => rw [h4] at hok; simp at hok
              | ok a0 =>
                rw [h4] at hok
                simp only [Except.mapError] at hok
                cases h5 : pyKey a0 "number" with
                | error er => rw [h5] at hok; simp at hok
                | ok num =>
                  rw [h5] at hok
                  simp only [Except.mapError] at hok
                  obtain ⟨rfl, rfl⟩ : num = a ∧ { s with account := num } = s' := by
                    simpa using hok
                  exact ⟨rfl, rfl, rfl, rfl, rfl, rfl, rfl, rfl, rfl, rfl,
                    rfl, rfl, rfl⟩

/-- Viewer response carrying one account number. -/
def viewerDataW : Json := .obj [("viewer", .obj [("accounts", .arr [.obj [
  ("number", .str "A-9")]])])]

/-- The state after account auto-discovery. -/
def discoveredW : ClientState := { nocacheS0 with account := .str "A-9" }

theorem cache_frame_c7_amended_witness :
    (nocacheS1.region = nocacheS0.region ∧ nocacheS1.email = nocacheS0.email ∧
     nocacheS1.password = nocacheS0.password ∧
     nocacheS1.api_key = nocacheS0.api_key ∧
     nocacheS1.account = nocacheS0.account ∧ nocacheS1.mpan = nocacheS0.mpan ∧
     nocacheS1.meter_serial = nocacheS0.meter_serial ∧
     nocacheS1.gas_mprn = nocacheS0.gas_mprn ∧
     nocacheS1.gas_meter_serial = nocacheS0.gas_meter_serial ∧
     nocacheS1.graphql_url = nocacheS0.graphql_url) ∧
    (discoveredW.account = .str "A-9" ∧
     discoveredW.region = nocacheS0.region ∧
     discoveredW.email = nocacheS0.email ∧
     discoveredW.password = nocacheS0.password ∧
     discoveredW.api_key = nocacheS0.api_key ∧
     discoveredW.mpan = nocacheS0.mpan ∧
     discoveredW.meter_serial = nocacheS0.meter_serial ∧
     discoveredW.gas_mprn = nocacheS0.gas_mprn ∧
     discoveredW.gas_meter_serial = nocacheS0.gas_meter_serial ∧
     discoveredW.token = nocacheS0.token ∧
     discoveredW.refresh_token = nocacheS0.refresh_token ∧
     discoveredW.token_expires = nocacheS0.token_expires ∧
     discoveredW.graphql_url = nocacheS0.graphql_url) :=
  ⟨(cache_frame_c7_amended nocacheS0 0 0 tokenBodyW viewerDataW).1
      (.str "tok1") nocacheS1 rfl,
   (cache_frame_c7_amended nocacheS0 0 0 tokenBodyW viewerDataW).2
      (.str "A-9") discoveredW rfl⟩

/-!  ## C8 -/

deriving instance DecidableEq for GasConsumption

/-- C8: `get_gas_consumption` classifies each raw reading value by
magnitude: one output record per input row, and a row with value `v` yields
`kwh = v * 11.1868` with `m3 = v` when `v < 10`, and `kwh = v` with no `m3`
otherwise. -/
theorem gas_magnitude_c8 (results : List GasRawReading) (r : GasRawReading)
    (hr : r ∈ results) :
    (get_gas_consumption results).length = results.length ∧
    ∃ g ∈ get_gas_consumption results,
      g.start = r.interval_start ∧ g.stop = r.interval_stop ∧
      (r.consumption < 10 →
        g.kwh = r.consumption * M3_TO_KWH ∧ g.m3 = some r.consumption) ∧
      (¬ r.consumption < 10 → g.kwh = r.consumption ∧ g.m3 = none) := by
  constructor
  · simp [get_gas_consumption]
  · refine ⟨gasRecordOf r,
      by simpa [get_gas_consumption] using List.mem_map_of_mem gasRecordOf hr,
      ?_, ?_, ?_, ?_⟩
    · rw [gasRecordOf]; split <;> rfl
    · rw [gasRecordOf]; split <;> rfl
    · intro h; rw [gasRecordOf, if_pos h]; exact ⟨rfl, rfl⟩
    · intro h; rw [gasRecordOf, if_neg h]; exact ⟨rfl, rfl⟩

/-- Concrete instances of `gas_magnitude_c8`: a small (m³-style) reading of
2 and a large (kWh-style) reading of 20. -/
def gasRawW : List GasRawReading := [⟨0, 30, 2⟩, ⟨30, 60, 20⟩]

theorem gas_magnitude_c8_witness :
    ((get_gas_consumption gasRawW).length = gasRawW.length ∧
     ∃ g ∈ get_gas_consumption gasRawW, g.start = 0 ∧ g.stop = 30 ∧
       ((2 : ℚ) < 10 → g.kwh = 2 * M3_TO_KWH ∧ g.m3 = some 2) ∧
       (¬ (2 : ℚ) < 10 → g.kwh = 2 ∧ g.m3 = none)) ∧
    ((get_gas_consumption gasRawW).length = gasRawW.length ∧
     ∃ g ∈ get_gas_consumption gasRawW, g.start = 30 ∧ g.stop = 60 ∧
       ((20 : ℚ) < 10 → g.kwh = 20 * M3_TO_KWH ∧ g.m3 = some 20) ∧
       (¬ (20 : ℚ) < 10 → g.kwh = 20 ∧ g.m3 = none)) :=
  ⟨gas_magnitude_c8 gasRawW ⟨0, 30, 2⟩ (by simp [gasRawW]),
   gas_magnitude_c8 gasRawW ⟨30, 60, 20⟩ (by simp [gasRawW])⟩

/-!  ## C9 -/

deriving instance DecidableEq for Consumption

theorem parseReading_error {r : RawReading} {e : PyErr}
    (h : parseReading r = .error e) :
    e = .attributeError ∧ r.startAt = .nonString := by
  cases hs : r.startAt with
  | missing => rw [parseReading, hs] at h; simp at h
  | nonString =>
    rw [parseReading, hs] at h
    simp only [Except.error.injEq] at h
    exact ⟨h.symm, rfl⟩
  | malformed => rw [parseReading, hs] at h; simp at h
  | parses t =>
    rw [parseReading, hs] at h
    cases hv : r.value <;> cases hc : r.costEstimate <;>
      rw [hv, hc] at h <;> simp at h

theorem parseReading_ok_some {r : RawReading} {c : Consumption}
    (h : parseReading r = .ok (some c)) : c.stop = c.start + 30 := by
  cases hs : r.startAt with
  | missing => rw [parseReading, hs] at h; simp at h
  | nonString => rw [parseReading, hs] at h; simp at h
  | malformed => rw [parseReading, hs] at h; simp at h
  | parses t =>
    rw [parseReading, hs] at h
    cases hv : r.value with
    | error e => rw [hv] at h; simp at h
    | ok v =>
      rw [hv] at h
      cases hc : r.costEstimate with
      | error e => rw [hc] at h; simp at h
      | ok ce =>
        rw [hc] at h
        obtain rfl :
            ({ start := t, stop := t + 30, kwh := v, cost_estimate := ce } :
              Consumption) = c := by simpa using h
        rfl

theorem collectReadings_error {rs : List RawReading} {e : PyErr}
    (h : collectReadings rs = .error e) :
    e = .attributeError ∧ ∃ r ∈ rs, r.startAt = .nonString := by
  induction rs with
  | nil => simp [collectReadings] at h
  | cons r rest ih =>
    rw [collectReadings] at h
    cases hp : parseReading r with
    | error e2 =>
      rw [hp] at h
      obtain rfl : e2 = e := by simpa using h
      obtain ⟨he, hs⟩ := parseReading_error hp
      exact ⟨he, r, List.mem_cons_self r rest, hs⟩
    | ok o =>
      rw [hp] at h
      cases o with
      | none =>
        simp only [] at h
        obtain ⟨he, r2, hm, hs⟩ := ih h
        exact ⟨he, r2, List.mem_cons_of_mem _ hm, hs⟩
      | some c =>
        simp only [] at h
        cases hc : collectReadings rest with
        | error e2 =>
          rw [hc] at h
          obtain rfl : e2 = e := by simpa using h
          obtain ⟨he, r2, hm, hs⟩ := ih hc
          exact ⟨he, r2, List.mem_cons_of_mem _ hm, hs⟩
        | ok cs => rw [hc] at h; simp at h

/-- The per-reading function whose `filterMap` over the flattened readings
gives the collected records on the success path. -/
def keptRecord (r : RawReading) : Option Consumption :=
  match parseReading r with
  | .ok (some c) => some c
  | _ => none

theorem collectReadings_ok {rs : List RawReading} {out : List Consumption}
    (h : collectReadings rs = .ok out) :
    out = rs.filterMap keptRecord := by
  induction rs generalizing out with
  | nil =>
    rw [collectReadings] at h
    obtain rfl : ([] : List Consumption) = out := by simpa using h
    simp
  | cons r rest ih =>
    rw [collectReadings] at h
    cases hp : parseReading r with
    | error e2 => rw [hp] at h; simp at h
    | ok o =>
      rw [hp] at h
      cases o with
      | none =>
        simp only [] at h
        rw [List.filterMap_cons]
        have hf : keptRecord r = none := by rw [keptRecord, hp]
        rw [hf]
        exact ih h
      | some c =>
        simp only [] at h
        cases hc : collectReadings rest with
        | error e2 => rw [hc] at h; simp at h
        | ok cs =>
          rw [hc] at h
          obtain rfl : c :: cs = out := by simpa using h
          rw [List.filterMap_cons]
          have hf : keptRecord r = some c := by rw [keptRecord, hp]
          rw [hf, ih hc]

theorem collectReadings_total {rs : List RawReading}
    (h : ∀ r ∈ rs, r.startAt ≠ .nonString) :
    ∃ out, collectReadings rs = .ok out := by
  induction rs with
  | nil => exact ⟨[], rfl⟩
  | cons r rest ih =>
    obtain ⟨out, hout⟩ := ih fun r2 hm => h r2 (List.mem_cons_of_mem _ hm)
    rw [collectReadings]
    cases hp : parseReading r with
    | error e =>
      obtain ⟨-, hs⟩ := parseReading_error hp
      exact absurd hs (h r (List.mem_cons_self r rest))
    | ok o =>
      cases o with
      | none => exact ⟨out, by simpa using hout⟩
      | some c => exact ⟨c :: out, by simp [hout]⟩

/-- C9 amended: on the success path, every record produced by
`_get_consumption_japan` ends exactly 30 minutes after it starts, the
output is sorted ascending by start and is a permutation of the kept
(successfully parsed) readings — readings whose extraction raises a caught
`ValueError`, `KeyError` or `TypeError` are skipped. The call fails only
when some reading has a present non-string `startAt`, whose `.replace`
raises an `AttributeError` that line 352 does not catch; when no reading is
of that shape the call always succeeds. -/
theorem japan_consumption_c9_amended (props : List PropertyNode) :
    (∀ out, get_consumption_japan props = .ok out →
      (∀ c ∈ out, c.stop = c.start + 30) ∧
      List.Sorted consLE out ∧
      out.Perm ((allReadings props).filterMap keptRecord)) ∧
    (∀ e, get_consumption_japan props = .error e →
      e = .attributeError ∧
      ∃ r ∈ allReadings props, r.startAt = .nonString) ∧
    ((∀ r ∈ allReadings props, r.startAt ≠ .nonString) →
      ∃ out, get_consumption_japan props = .ok out) := by
  refine ⟨?_, ?_, ?_⟩
  · intro out hok
    rw [get_consumption_japan] at hok
    cases hc : collectReadings (allReadings props) with
    | error e => rw [hc] at hok; simp at hok
    | ok readings =>
      rw [hc] at hok
      obtain rfl : List.insertionSort consLE readings = out := by simpa using hok
      have hfm := collectReadings_ok hc
      refine ⟨?_, List.sorted_insertionSort consLE readings, ?_⟩
      · intro c hcmem
        have hmem :=
          (List.perm_insertionSort consLE readings).mem_iff.mp hcmem
        rw [hfm] at hmem
        obtain ⟨r, hr, hpr⟩ := List.mem_filterMap.mp hmem
        rw [keptRecord] at hpr
        cases hp : parseReading r with
        | error e => rw [hp] at hpr; simp at hpr
        | ok o =>
          rw [hp] at hpr
          cases o with
          | none => simp at hpr
          | some c2 =>
            obtain rfl : c2 = c := by simpa using hpr
            exact parseReading_ok_some hp
      · exact hfm ▸ List.perm_insertionSort consLE readings
  · intro e herr
    rw [get_consumption_japan] at herr
    cases hc : collectReadings (allReadings props) with
    | error e2 =>
      rw [hc] at herr
      obtain rfl : e2 = e := by simpa using herr
      exact collectReadings_error hc
    | ok readings => rw [hc] at herr; simp at herr
  · intro hns
    obtain ⟨out, hout⟩ := collectReadings_total hns
    exact ⟨List.insertionSort consLE out, by rw [get_consumption_japan, hout]⟩

/-- Counterexample to C9 as stated: a reading whose `startAt` is present
but not a string (for instance `null`) makes `r["startAt"].replace` raise
`AttributeError`, which the `except (ValueError, KeyError, TypeError)` on
line 352 does not catch — the call fails instead of skipping the reading,
even though a well-formed sibling reading was processed first. -/
def badReadingW : RawReading :=
  { startAt := .nonString, value := .ok 1, costEstimate := .ok 0 }

def badPropsW : List PropertyNode :=
  [{ electricitySupplyPoints := [{ halfHourlyReadings := [
      { startAt := .parses 0, value := .ok 2, costEstimate := .ok 0 },
      badReadingW] }] }]

theorem japan_consumption_c9_counterexample :
    get_consumption_japan badPropsW = .error .attributeError := rfl

/-- Concrete instance of `japan_consumption_c9_amended`: two parseable
readings given out of order plus one whose `startAt` string fails ISO
parsing (a caught `ValueError`); the malformed reading is skipped, the
call succeeds, and the record starting at minute 0 ends at minute 30. -/
def japanPropsW : List PropertyNode :=
  [{ electricitySupplyPoints := [
      { halfHourlyReadings := [
          { startAt := .parses 60, value := .ok 1, costEstimate := .ok 5 },
          { startAt := .parses 0, value := .ok 2, costEstimate := .ok 0 },
          { startAt := .malformed, value := .ok 3, costEstimate := .ok 0 }] }] }]

theorem japan_consumption_c9_witness :
    (get_consumption_japan japanPropsW =
      .ok [⟨0, 30, 2, 0⟩, ⟨60, 90, 1, 5⟩]) ∧
    ((⟨0, 30, 2, 0⟩ : Consumption) ∈
      [(⟨0, 30, 2, 0⟩ : Consumption), ⟨60, 90, 1, 5⟩]) ∧
    (⟨0, 30, 2, 0⟩ : Consumption).stop =
      (⟨0, 30, 2, 0⟩ : Consumption).start + 30 ∧
    (∀ r ∈ allReadings japanPropsW, r.startAt ≠ .nonString) ∧
    ∃ out, get_consumption_japan japanPropsW = .ok out :=
  ⟨rfl, by decide,
   ((japan_consumption_c9_amended japanPropsW).1 _ rfl).1 _ (by decide),
   by decide,
   (japan_consumption_c9_amended japanPropsW).2.2 (by decide)⟩

/-!  ## C10 -/

/-- First-binding lookup with default 0, `daily.get(day, 0)`. -/
def lookupDay : List (Int × ℚ) → Int → ℚ
  | [], _ => 0
  | (k, v) :: rest, key => if k = key then v else lookupDay rest key

theorem bumpDay_lookup_same (d : List (Int × ℚ)) (k : Int) (v : ℚ) :
    lookupDay (bumpDay d k v) k = lookupDay d k + v := by
  induction d with
  | nil => simp [bumpDay, lookupDay]
  | cons hd tl ih =>
    obtain ⟨k0, v0⟩ := hd
    rw [bumpDay]
    by_cases h : k0 = k
    · subst h
      simp [lookupDay]
    · rw [if_neg h]
      rw [lookupDay, if_neg h, lookupDay, if_neg h]
      exact ih

theorem bumpDay_lookup_other {k k' : Int} (d : List (Int × ℚ)) (v : ℚ)
    (h : k' ≠ k) : lookupDay (bumpDay d k v) k' = lookupDay d k' := by
  induction d with
  | nil => simp [bumpDay, lookupDay, Ne.symm h]
  | cons hd tl ih =>
    obtain ⟨k0, v0⟩ := hd
    rw [bumpDay]
    by_cases h0 : k0 = k
    · subst h0
      rw [if_pos rfl]
      rw [lookupDay, if_neg (Ne.symm h), lookupDay, if_neg (Ne.symm h)]
    · rw [if_neg h0]
      by_cases h1 : k0 = k'
      · subst h1
        rw [lookupDay, if_pos rfl, lookupDay, if_pos rfl]
      · rw [lookupDay, if_neg h1, lookupDay, if_neg h1]
        exact ih

theorem bumpDay_sum (d : List (Int × ℚ)) (k : Int) (v : ℚ) :
    ((bumpDay d k v).map Prod.snd).sum = (d.map Prod.snd).sum + v := by
  induction d with
  | nil => simp [bumpDay]
  | cons hd tl ih =>
    obtain ⟨k0, v0⟩ := hd
    rw [bumpDay]
    by_cases h : k0 = k
    · subst h
      simp [List.map_cons, List.sum_cons]
      ring
    · rw [if_neg h]
      simp only [List.map_cons, List.sum_cons, ih]
      ring

theorem bumpDay_keys_mem {d : List (Int × ℚ)} {k k' : Int} {v : ℚ} :
    k' ∈ (bumpDay d k v).map Prod.fst ↔ k' ∈ d.map Prod.fst ∨ k' = k := by
  induction d with
  | nil => simp [bumpDay]
  | cons hd tl ih =>
    obtain ⟨k0, v0⟩ := hd
    rw [bumpDay]
    by_cases h : k0 = k
    · subst h
      rw [if_pos rfl]
      simp only [List.map_cons, List.mem_cons]
      tauto
    · rw [if_neg h]
      simp only [List.map_cons, List.mem_cons, ih]
      tauto

theorem bumpDay_nodup {d : List (Int × ℚ)} {k : Int} {v : ℚ}
    (h : (d.map Prod.fst).Nodup) :
    ((bumpDay d k v).map Prod.fst).Nodup := by
  induction d with
  | nil => simp [bumpDay]
  | cons hd tl ih =>
    obtain ⟨k0, v0⟩ := hd
    rw [bumpDay]
    simp only [List.map_cons, List.nodup_cons] at h
    by_cases h0 : k0 = k
    · subst h0
      rw [if_pos rfl]
      simp only [List.map_cons, List.nodup_cons]
      exact h
    · rw [if_neg h0]
      simp only [List.map_cons, List.nodup_cons]
      refine ⟨?_, ih h.2⟩
      intro hmem
      rcases bumpDay_keys_mem.mp hmem with h1 | h1
      · exact h.1 h1
      · exact h0 h1

theorem mem_lookupDay {d : List (Int × ℚ)} {kv : Int × ℚ}
    (hnd : (d.map Prod.fst).Nodup) (h : kv ∈ d) :
    kv.2 = lookupDay d kv.1 := by
  induction d with
  | nil => simp at h
  | cons hd tl ih =>
    obtain ⟨k0, v0⟩ := hd
    simp only [List.map_cons, List.nodup_cons] at hnd
    rcases List.mem_cons.mp h with rfl | hm
    · rw [lookupDay, if_pos rfl]
    · have hk : k0 ≠ kv.1 := by
        intro he
        exact hnd.1 (he ▸ List.mem_map_of_mem Prod.fst hm)
      rw [lookupDay, if_neg hk]
      exact ih hnd.2 hm

theorem daily_fold_sum (cs : List Consumption) :
    ∀ d : List (Int × ℚ),
      ((cs.foldl (fun d c => bumpDay d (dayOf c.start) c.kwh) d).map
          Prod.snd).sum =
        (d.map Prod.snd).sum + (cs.map Consumption.kwh).sum := by
  induction cs with
  | nil => intro d; simp
  | cons c tl ih =>
    intro d
    rw [List.foldl_cons, ih, bumpDay_sum]
    simp only [List.map_cons, List.sum_cons]
    ring

theorem daily_fold_lookup (cs : List Consumption) :
    ∀ (d : List (Int × ℚ)) (k : Int),
      lookupDay (cs.foldl (fun d c => bumpDay d (dayOf c.start) c.kwh) d) k =
        lookupDay d k +
          ((cs.filter fun c => dayOf c.start == k).map Consumption.kwh).sum := by
  induction cs with
  | nil => intro d k; simp
  | cons c tl ih =>
    intro d k
    rw [List.foldl_cons, ih]
    by_cases h : dayOf c.start = k
    · rw [List.filter_cons_of_pos (by simpa using h), h, bumpDay_lookup_same]
      simp only [List.map_cons, List.sum_cons]
      ring
    · rw [List.filter_cons_of_neg (by simpa using h),
        bumpDay_lookup_other _ _ (Ne.symm h)]

theorem daily_fold_keys (cs : List Consumption) :
    ∀ (d : List (Int × ℚ)) (k : Int),
      k ∈ (cs.foldl (fun d c => bumpDay d (dayOf c.start) c.kwh) d).map
            Prod.fst →
        k ∈ d.map Prod.fst ∨ ∃ c ∈ cs, dayOf c.start = k := by
  induction cs with
  | nil => intro d k h; exact Or.inl h
  | cons c tl ih =>
    intro d k h
    rw [List.foldl_cons] at h
    rcases ih _ k h with h2 | h2
    · rcases bumpDay_keys_mem.mp h2 with h3 | h3
      · exact Or.inl h3
      · exact Or.inr ⟨c, List.mem_cons_self c tl, h3.symm⟩
    · obtain ⟨c2, hc2, hd⟩ := h2
      exact Or.inr ⟨c2, List.mem_cons_of_mem _ hc2, hd⟩

theorem daily_fold_nodup (cs : List Consumption) :
    ∀ d : List (Int × ℚ), (d.map Prod.fst).Nodup →
      ((cs.foldl (fun d c => bumpDay d (dayOf c.start) c.kwh) d).map
          Prod.fst).Nodup := by
  induction cs with
  | nil => intro d h; exact h
  | cons c tl ih =>
    intro d h
    rw [List.foldl_cons]
    exact ih _ (bumpDay_nodup h)

/-- C10: `get_daily_usage` is a sum-homomorphism over the fetched
consumption list. Every binding of the returned dict is keyed by the day of
some reading and its value is the total kWh of exactly the readings whose
start falls on that day, and the sum of all values equals the total kWh of
all readings. -/
theorem daily_usage_c10 (cs : List Consumption) :
    (∀ kv ∈ get_daily_usage cs,
      (∃ c ∈ cs, dayOf c.start = kv.1) ∧
      kv.2 = ((cs.filter fun c => dayOf c.start == kv.1).map
                Consumption.kwh).sum) ∧
    ((get_daily_usage cs).map Prod.snd).sum = (cs.map Consumption.kwh).sum := by
  constructor
  · intro kv hkv
    constructor
    · have hk : kv.1 ∈ (get_daily_usage cs).map Prod.fst :=
        List.mem_map_of_mem Prod.fst hkv
      rcases daily_fold_keys cs [] kv.1 hk with h | h
      · simp at h
      · exact h
    · have hnd := daily_fold_nodup cs [] (by simp)
      have h1 := mem_lookupDay hnd hkv
      rw [h1, daily_fold_lookup]
      rw [lookupDay]
      ring
  · have h := daily_fold_sum cs []
    simpa [get_daily_usage] using h

/-- Concrete instance of `daily_usage_c10`: readings of 1 and 2 kWh on day 0
and 4 kWh on day 1 yield the binding (day 0, 3 kWh). -/
def dailyCsW : List Consumption :=
  [⟨0, 30, 1, 0⟩, ⟨30, 60, 2, 0⟩, ⟨1440, 1470, 4, 0⟩]

theorem daily_usage_c10_witness :
    ((0, (3 : ℚ)) ∈ get_daily_usage dailyCsW) ∧
    ((∃ c ∈ dailyCsW, dayOf c.start = 0) ∧
      (3 : ℚ) = ((dailyCsW.filter fun c => dayOf c.start == 0).map
                    Consumption.kwh).sum) :=
  ⟨by simp [get_daily_usage, dailyCsW, bumpDay, dayOf,
      show (1 : ℚ) + 2 = 3 from by norm_num],
   (daily_usage_c10 dailyCsW).1 (0, 3)
     (by simp [get_daily_usage, dailyCsW, bumpDay, dayOf,
       show (1 : ℚ) + 2 = 3 from by norm_num])⟩
